import Mathlib

/-!
Verification of the fault-injection HTTP proxy (src/main.rs) against its
natural-language specification.

The Rust program is shallowly embedded: the two axum handlers
(delay_handler, failure_handler) become pure Lean functions over an
explicit per-request input (configuration, header map, JSON payload,
random-oracle draws, downstream outcome), returning the event trace the
handler performs together with either an HTTP response (status, JSON body)
or a panic message (Rust panics are modelled as Except.error).

External library calls are modelled as follows:
 * rand::thread_rng().gen_bool(p) — a draw r from the uniform oracle on
   [0,1) is passed in; gen_bool panics when p is outside [0,1] and
   otherwise returns (r < p), matching rand's Bernoulli sampler.
 * rand::thread_rng().gen_range(0..=max) — a Nat oracle draw r is passed
   in and reduced mod (max+1), so the result ranges over [0, max].
 * serde_json::to_vec — passed in as a serializer parameter (ser), since
   the handlers only depend on whether it succeeds or fails.
 * serde_json::from_slice — modelled by the executable JSON parser
   serdeFromSlice below (whitespace, null, booleans, decimal numbers,
   escape-free strings, arrays, objects).
 * Request::builder().uri(..).body(..) — modelled by a URI validity check
   (uriIsValid); the .unwrap() on a builder error is a panic.
Rust f64 values are modelled as exact rationals (the type Q below, kept
kernel-computable); every claim here depends only on comparisons and
arithmetic that are exact in f64.
-/

/- ---------------------------------------------------------------------
   Exact rationals with kernel-computable arithmetic (model of f64 on
   the values this program manipulates)
--------------------------------------------------------------------- -/

/-- Euclidean gcd with explicit fuel, structurally recursive so that the
kernel can evaluate it on literals. -/
def gcdAux : Nat → Nat → Nat → Nat
  | 0, _, n => n
  | _, 0, n => n
  | fuel + 1, m + 1, n => gcdAux fuel (n % (m + 1)) (m + 1)

/-- Greatest common divisor (fuel m+1 always suffices since the first
argument strictly decreases at every step). -/
def natGcd (m n : Nat) : Nat := gcdAux (m + 1) m n

/-- An exact rational: numerator and positive denominator, kept in
lowest terms by the smart constructor Q.norm. Models Rust f64 on the
(finitely representable) values this program manipulates. -/
structure Q where
  num : Int
  den : Nat
deriving DecidableEq, Repr

/-- Normalize a fraction to lowest terms (a zero denominator, which no
operation here produces, maps to 0). -/
def Q.norm (n : Int) (d : Nat) : Q :=
  if d = 0 then Q.mk 0 1
  else Q.mk (n / (natGcd n.natAbs d : Nat)) (d / natGcd n.natAbs d)

/-- Embed a natural number. -/
def Q.ofNat (n : Nat) : Q := Q.mk (Int.ofNat n) 1

instance (n : Nat) : OfNat Q n := ⟨Q.ofNat n⟩

/-- Addition. -/
def Q.add (a b : Q) : Q := Q.norm (a.num * b.den + b.num * a.den) (a.den * b.den)

/-- Subtraction. -/
def Q.sub (a b : Q) : Q := Q.norm (a.num * b.den - b.num * a.den) (a.den * b.den)

/-- Multiplication. -/
def Q.mul (a b : Q) : Q := Q.norm (a.num * b.num) (a.den * b.den)

/-- Division. -/
def Q.div (a b : Q) : Q :=
  if 0 ≤ b.num then Q.norm (a.num * b.den) (a.den * b.num.natAbs)
  else Q.norm (-(a.num * b.den)) (a.den * b.num.natAbs)

/-- Negation. -/
def Q.neg (a : Q) : Q := Q.mk (-a.num) a.den

instance : Add Q := ⟨Q.add⟩

instance : Sub Q := ⟨Q.sub⟩

instance : Mul Q := ⟨Q.mul⟩

instance : Div Q := ⟨Q.div⟩

instance : Neg Q := ⟨Q.neg⟩

/-- Strict order by cross multiplication (denominators are positive for
every value built by the operations above). -/
def Q.blt (a b : Q) : Bool := decide (a.num * b.den < b.num * a.den)

/-- Non-strict order by cross multiplication. -/
def Q.ble (a b : Q) : Bool := decide (a.num * b.den ≤ b.num * a.den)

instance : LT Q := ⟨fun a b => Q.blt a b = true⟩

instance : LE Q := ⟨fun a b => Q.ble a b = true⟩

instance (a b : Q) : Decidable (a < b) :=
  inferInstanceAs (Decidable (Q.blt a b = true))

instance (a b : Q) : Decidable (a ≤ b) :=
  inferInstanceAs (Decidable (Q.ble a b = true))

/-- JSON document values (serde_json::Value). Numbers are modelled as
exact rationals. -/
inductive Value where
  | null : Value
  | bool : Bool → Value
  | num : Q → Value
  | str : String → Value
  | arr : List Value → Value
  | obj : List (String × Value) → Value
deriving Repr

/- ---------------------------------------------------------------------
   Primitive parsers, modelling Rust's FromStr implementations used by
   the handlers (u64::from_str, u16::from_str, bool::from_str,
   f64::from_str on finite decimal literals).
--------------------------------------------------------------------- -/

/-- Numeric value of a decimal digit character, none for non-digits. -/
def digitVal (c : Char) : Option Nat :=
  if c.isDigit then some (c.toNat - 48) else none

/-- Parse a non-empty all-digit character list to a Nat. -/
def parseDigits : List Char → Option Nat
  | [] => none
  | cs =>
    if cs.all Char.isDigit then
      some (cs.foldl (fun acc c => acc * 10 + (c.toNat - 48)) 0)
    else none

/-- Model of Rust unsigned integer parsing s.parse with an upper bound
2^bits: optional leading plus sign, then at least one digit, and the
value must fit in the integer type or parsing fails (overflow error). -/
def parseUInt (bits : Nat) (s : String) : Option Nat :=
  let cs := match s.toList with
    | '+' :: rest => rest
    | cs => cs
  match parseDigits cs with
  | some n => if n < 2 ^ bits then some n else none
  | none => none

/-- Model of s.parse::<u64>(). -/
def parseU64 (s : String) : Option Nat := parseUInt 64 s

/-- Model of s.parse::<u16>(). -/
def parseU16 (s : String) : Option Nat := parseUInt 16 s

/-- Model of s.parse::<bool>(): exactly "true" or "false". -/
def parseBool (s : String) : Option Bool :=
  if s = "true" then some true
  else if s = "false" then some false
  else none

/-- Model of s.parse::<f64>() on the finite decimal fragment of its
grammar: optional sign, then digits with an optional fractional part
(at least one digit overall). Exponents, "inf" and "NaN" are not needed
by any claim and parse to none here. The value is kept as an exact
rational; all claims depend only on f64-exact comparisons. -/
def parseF64 (s : String) : Option Q :=
  let signedTail : Q × List Char := match s.toList with
    | '-' :: rest => (-1, rest)
    | '+' :: rest => (1, rest)
    | cs => (1, cs)
  let sign := signedTail.1
  let cs := signedTail.2
  let intPart := cs.takeWhile Char.isDigit
  let rest := cs.dropWhile Char.isDigit
  match rest with
  | [] =>
    match parseDigits intPart with
    | some n => some (sign * Q.ofNat n)
    | none => none
  | '.' :: frac =>
    if frac.all Char.isDigit ∧ (intPart ≠ [] ∨ frac ≠ []) then
      let ip : Q := Q.ofNat (intPart.foldl (fun acc c => acc * 10 + (c.toNat - 48)) 0)
      let fp : Q := Q.ofNat (frac.foldl (fun acc c => acc * 10 + (c.toNat - 48)) 0)
      some (sign * (ip + fp / Q.ofNat (10 ^ frac.length)))
    else none
  | _ => none

/-- Model of http::StatusCode::from_u16: succeeds exactly for codes in
[100, 1000). -/
def statusCodeFromU16 (n : Nat) : Option Nat :=
  if 100 ≤ n ∧ n < 1000 then some n else none

/- ---------------------------------------------------------------------
   Configuration (Config, Config::from_env)
--------------------------------------------------------------------- -/

/-- Configuration struct holding the environment variables
(src/main.rs lines 23-27). -/
structure Config where
  target_url : String
  success_probability : Q
deriving Repr

/-- Config::from_env (src/main.rs lines 30-45). The process environment
is passed in as the two relevant optional variables; an Except.error is
a panic via .expect, which aborts startup. TARGET_URL is required;
SUCCESS_PROBABILITY defaults to "0.8" and is parsed as f64 — note that
the source performs no range check on the parsed value. -/
def Config.from_env (targetUrlVar successProbabilityVar : Option String) :
    Except String Config :=
  match targetUrlVar with
  | none => Except.error "TARGET_URL must be set"
  | some target_url =>
    match parseF64 ((successProbabilityVar.getD "0.8")) with
    | none =>
      Except.error "SUCCESS_PROBABILITY must be a float between 0.0 and 1.0"
    | some success_probability =>
      Except.ok (Config.mk target_url success_probability)

/- ---------------------------------------------------------------------
   JSON rendering (serde_json serialization of a Value) and JSON parsing
   (serde_json::from_slice). The renderer is exact on the values the
   claims evaluate (integers, quote-free strings, composites thereof).
--------------------------------------------------------------------- -/

/-- Render a JSON number. Integers render exactly as serde_json does;
non-integral rationals (which no evaluated claim produces) are shown as
a fraction. -/
def renderNum (q : Q) : String :=
  if q.den = 1 then toString q.num
  else toString q.num ++ "/" ++ toString q.den

/-- Render a JSON string literal (escape-free fragment). -/
def renderStr (s : String) : String :=
  "\"" ++ s ++ "\""

mutual

/-- Render a Value to its JSON text, modelling serde_json serialization
of a Value (as performed by axum's Json responder). -/
def Value.render : Value → String
  | Value.null => "null"
  | Value.bool true => "true"
  | Value.bool false => "false"
  | Value.num q => renderNum q
  | Value.str s => renderStr s
  | Value.arr xs => "[" ++ renderArr xs ++ "]"
  | Value.obj fs => "\x7b" ++ renderObj fs ++ "\x7d"

/-- Render array elements, comma separated. -/
def renderArr : List Value → String
  | [] => ""
  | [v] => Value.render v
  | v :: rest => Value.render v ++ "," ++ renderArr rest

/-- Render object fields, comma separated. -/
def renderObj : List (String × Value) → String
  | [] => ""
  | [(k, v)] => renderStr k ++ ":" ++ Value.render v
  | (k, v) :: rest => renderStr k ++ ":" ++ Value.render v ++ "," ++ renderObj rest

end

/-- Consume leading JSON whitespace. -/
def skipWs : List Char → List Char
  | c :: rest =>
    if c = ' ' ∨ c = '\t' ∨ c = '\n' ∨ c = '\r' then skipWs rest else c :: rest
  | [] => []

/-- Numeric value of an all-digit character list, as a rational. -/
def digitsVal (cs : List Char) : Q :=
  Q.ofNat (cs.foldl (fun acc c => acc * 10 + (c.toNat - 48)) 0)

/-- Parse a JSON number at the head of the input (sign, digits, optional
fractional part). -/
def parseJsonNum (cs : List Char) : Option (Value × List Char) :=
  let signedTail : Q × List Char := match cs with
    | '-' :: r => (-1, r)
    | _ => (1, cs)
  let sign := signedTail.1
  let cs2 := signedTail.2
  let ip := cs2.takeWhile Char.isDigit
  let r1 := cs2.dropWhile Char.isDigit
  if ip = [] then none
  else
    match r1 with
    | '.' :: r2 =>
      let fp := r2.takeWhile Char.isDigit
      let r3 := r2.dropWhile Char.isDigit
      if fp = [] then none
      else some (Value.num (sign * (digitsVal ip + digitsVal fp / Q.ofNat (10 ^ fp.length))), r3)
    | _ => some (Value.num (sign * digitsVal ip), r1)

/-- Parse a JSON string literal at the head of the input (escape-free
fragment of the JSON grammar). -/
def parseJsonStr (cs : List Char) : Option (Value × List Char) :=
  match cs with
  | '"' :: rest =>
    let content := rest.takeWhile (fun c => decide (c ≠ '"'))
    match rest.dropWhile (fun c => decide (c ≠ '"')) with
    | '"' :: r2 => some (Value.str (String.mk content), r2)
    | _ => none
  | _ => none

mutual

/-- Fuel-indexed recursive-descent JSON value parser. -/
def parseJsonVal : Nat → List Char → Option (Value × List Char)
  | 0, _ => none
  | fuel + 1, cs =>
    match skipWs cs with
    | 'n' :: 'u' :: 'l' :: 'l' :: rest => some (Value.null, rest)
    | 't' :: 'r' :: 'u' :: 'e' :: rest => some (Value.bool true, rest)
    | 'f' :: 'a' :: 'l' :: 's' :: 'e' :: rest => some (Value.bool false, rest)
    | '"' :: rest => parseJsonStr ('"' :: rest)
    | '[' :: rest =>
      (match skipWs rest with
       | ']' :: r2 => some (Value.arr [], r2)
       | r2 => (parseJsonArrItems fuel r2).map (fun p => (Value.arr p.1, p.2)))
    | '\x7b' :: rest =>
      (match skipWs rest with
       | '\x7d' :: r2 => some (Value.obj [], r2)
       | r2 => (parseJsonObjItems fuel r2).map (fun p => (Value.obj p.1, p.2)))
    | rest => parseJsonNum rest

/-- Parse the comma-separated items of a JSON array up to and including
the closing bracket. -/
def parseJsonArrItems : Nat → List Char → Option (List Value × List Char)
  | 0, _ => none
  | fuel + 1, cs =>
    match parseJsonVal fuel cs with
    | none => none
    | some (v, rest) =>
      match skipWs rest with
      | ',' :: r2 => (parseJsonArrItems fuel r2).map (fun p => (v :: p.1, p.2))
      | ']' :: r2 => some ([v], r2)
      | _ => none

/-- Parse the comma-separated key-value pairs of a JSON object up to and
including the closing brace. -/
def parseJsonObjItems : Nat → List Char → Option (List (String × Value) × List Char)
  | 0, _ => none
  | fuel + 1, cs =>
    match parseJsonStr (skipWs cs) with
    | some (Value.str k, rest) =>
      (match skipWs rest with
       | ':' :: r2 =>
         (match parseJsonVal fuel r2 with
          | none => none
          | some (v, r3) =>
            match skipWs r3 with
            | ',' :: r4 => (parseJsonObjItems fuel r4).map (fun p => ((k, v) :: p.1, p.2))
            | '\x7d' :: r4 => some ([(k, v)], r4)
            | _ => none)
       | _ => none)
    | _ => none

end

/-- Model of serde_json::from_slice::<Value> on the body bytes: parse a
single JSON document, requiring only trailing whitespace after it. -/
def serdeFromSlice (s : String) : Option Value :=
  match parseJsonVal (s.length + 1) s.toList with
  | some (v, rest) => if skipWs rest = [] then some v else none
  | none => none

/-- Model of serde_json::to_vec on a Value: always succeeds, producing
the rendered JSON text (Value serialization is infallible). Used to
instantiate the serializer parameter of the handlers in witnesses. -/
def serdeToVec (v : Value) : Except String String :=
  Except.ok (Value.render v)

/- ---------------------------------------------------------------------
   Per-request inputs: headers, random oracle, downstream outcome
--------------------------------------------------------------------- -/

/-- The override headers the two handlers read. Each field models
headers.get("X-...").and_then(to_str.ok): axum header lookup is
case-insensitive, and a header that is absent (or whose value is not
visible ASCII, so that to_str fails) is none. -/
structure HeaderMap where
  xConstantDelayMs : Option String
  xMaxRandomDelayMs : Option String
  xProxyUrl : Option String
  xReturnOriginal : Option String
  xFailureRate : Option String
  xFailureStatusCode : Option String
deriving Repr

/-- A header map with no override headers set. -/
def HeaderMap.empty : HeaderMap :=
  HeaderMap.mk none none none none none none

/-- The per-request fault plan derived from headers and configuration
(the spec's RequestDecorator output; the field expressions are the inline
header pipelines of src/main.rs lines 84-92, 105-108, 191-220). -/
structure FaultPlan where
  constant_delay_ms : Option Nat
  max_random_delay_ms : Option Nat
  failure_rate : Q
  failure_status_code : Nat
  return_original : Bool
  target_url : String
deriving Repr

/-- RequestDecorator decode(headers, config): each field is the source's
get / to_str / parse / unwrap_or pipeline. Total — it never fails. -/
def FaultPlan.decode (headers : HeaderMap) (config : Config) : FaultPlan :=
  FaultPlan.mk
    (headers.xConstantDelayMs.bind parseU64)
    (headers.xMaxRandomDelayMs.bind parseU64)
    ((headers.xFailureRate.bind parseF64).getD (1 - config.success_probability))
    (((headers.xFailureStatusCode.bind parseU16).bind statusCodeFromU16).getD 500)
    ((headers.xReturnOriginal.bind parseBool).getD false)
    (headers.xProxyUrl.getD config.target_url)

/-- Observable actions a handler performs, in execution order. -/
inductive Event where
  | sleep (ms : Nat)
  | trial (p : Q)
  | serialize
  | buildRequest (uri : String)
  | networkSend (uri : String)
deriving Repr, DecidableEq

/-- Whether an event is the Bernoulli failure trial. -/
def Event.isTrial : Event → Bool
  | Event.trial _ => true
  | _ => false

/-- Whether an event is forwarding work (payload serialization, request
construction, or network I/O). -/
def Event.isForwardingWork : Event → Bool
  | Event.serialize => true
  | Event.buildRequest _ => true
  | Event.networkSend _ => true
  | _ => false

/-- Outcome of the downstream exchange client.request(req).await and the
subsequent body collect: transport failure, a response whose body read
fails, or a response with status and raw body bytes. -/
inductive Downstream where
  | transportError (cause : String)
  | bodyReadError (status : Nat) (cause : String)
  | response (status : Nat) (body : String)
deriving Repr

/-- Model of rand gen_bool(p) given a draw r from the uniform oracle on
[0,1): Bernoulli::new(p) fails — so gen_bool panics — unless 0 ≤ p ≤ 1;
otherwise the trial fires exactly when r < p (so p = 0 is never true and
p = 1 is always true). -/
def genBool (p r : Q) : Except String Bool :=
  if p < 0 ∨ 1 < p then
    Except.error "BernoulliError: p is outside range [0, 1] in gen_bool"
  else Except.ok (decide (r < p))

/-- Model of rand gen_range(0..=maxVal) given a Nat oracle draw r: the
result is r reduced into the inclusive range [0, maxVal]. -/
def genRange (maxVal r : Nat) : Nat := r % (maxVal + 1)

/-- Whether a character may appear in an http::Uri (fragment of the http
crate's byte validity table: visible ASCII except a few delimiters). -/
def uriChar (c : Char) : Bool :=
  decide (33 ≤ c.toNat) && decide (c.toNat ≤ 126) &&
  !(c = '"') && !(c = '<') && !(c = '>') && !(c = '\\') && !(c = '^') && !(c = '|')

/-- Model of the validity check Request::builder().uri(target_url)
performs: the empty string and any string holding a space or another
non-URI byte is rejected, and the builder error then surfaces at
.body(..), whose .unwrap() panics. -/
def uriIsValid (s : String) : Bool :=
  !s.isEmpty && s.toList.all uriChar

/- ---------------------------------------------------------------------
   Response body constructors (the json! blocks of the handlers)
--------------------------------------------------------------------- -/

/-- json! body for a payload serialization failure (main.rs 116-119 and
242-245). -/
def serializeErrorBody (details : String) : Value :=
  Value.obj [("error", Value.str "Failed to serialize request body"),
             ("details", Value.str details)]

/-- json! body for a downstream body read failure (main.rs 140-143 and
266-269). -/
def readErrorBody (details : String) : Value :=
  Value.obj [("error", Value.str "Failed to read response body"),
             ("details", Value.str details)]

/-- json! body for a transport failure of the forwarded request
(main.rs 165-169 and 291-295). -/
def forwardErrorBody (details targetUrl : String) : Value :=
  Value.obj [("error", Value.str "Failed to forward request"),
             ("details", Value.str details),
             ("target_url", Value.str targetUrl)]

/-- JSON encoding of an optional integer (Option u64 serializes as the
number or null). -/
def optNatValue : Option Nat → Value
  | some n => Value.num (Q.ofNat n)
  | none => Value.null

/-- json! success envelope of the delay endpoint (main.rs 153-161). -/
def delayEnvelope (constantDelay maxRandomDelay : Option Nat)
    (targetUrl : String) (body : Value) : Value :=
  Value.obj [("status", Value.str "success"),
    ("applied_delays", Value.obj [
      ("constant_delay_ms", optNatValue constantDelay),
      ("random_delay_ms",
        ((maxRandomDelay.map (fun m => Value.str ("0-" ++ toString m))).getD Value.null))]),
    ("target_url", Value.str targetUrl),
    ("response", body)]

/-- json! synthetic failure body of the failure endpoint (main.rs
226-232). -/
def simulatedFailureBody (targetUrl : String) (failureRate : Q)
    (statusCode : Nat) (requestBody : Value) : Value :=
  Value.obj [("error", Value.str "Simulated failure"),
    ("target_url", Value.str targetUrl),
    ("failure_rate", Value.num failureRate),
    ("status_code", Value.num (Q.ofNat statusCode)),
    ("request_body", requestBody)]

/-- json! success envelope of the failure endpoint when return_original
is false (main.rs 282-286). -/
def failureSuccessEnvelope (targetUrl : String) (body : Value) : Value :=
  Value.obj [("status", Value.str "success"),
    ("target_url", Value.str targetUrl),
    ("response", body)]

/- ---------------------------------------------------------------------
   The two handlers
--------------------------------------------------------------------- -/

/-- delay_handler (src/main.rs lines 76-172). Inputs beyond the request
itself: ser models serde_json::to_vec, delayDraw is the oracle draw for
gen_range, downstream is the outcome of the forwarded exchange. Returns
the event trace performed and either the HTTP response (status, body
value) or a panic message. The downstream status is passed through as
the response status. -/
def delay_handler (ser : Value → Except String String)
    (config : Config) (headers : HeaderMap) (payload : Value)
    (delayDraw : Nat) (downstream : Downstream) :
    List Event × Except String (Nat × Value) :=
  let plan := FaultPlan.decode headers config
  let constSleeps : List Event := match plan.constant_delay_ms with
    | some d => [Event.sleep d]
    | none => []
  let randomSleeps : List Event := match plan.max_random_delay_ms with
    | some m => [Event.sleep (genRange m delayDraw)]
    | none => []
  let sleeps := constSleeps ++ randomSleeps
  let target_url := plan.target_url
  match ser payload with
  | Except.error e =>
    (sleeps ++ [Event.serialize], Except.ok (400, serializeErrorBody e))
  | Except.ok _ =>
    let evs := sleeps ++ [Event.serialize, Event.buildRequest target_url]
    if uriIsValid target_url then
      match downstream with
      | Downstream.transportError cause =>
        (evs ++ [Event.networkSend target_url],
         Except.ok (502, forwardErrorBody cause target_url))
      | Downstream.bodyReadError _ cause =>
        (evs ++ [Event.networkSend target_url],
         Except.ok (502, readErrorBody cause))
      | Downstream.response status bodyStr =>
        let body := (serdeFromSlice bodyStr).getD Value.null
        (evs ++ [Event.networkSend target_url],
         Except.ok (status,
           delayEnvelope plan.constant_delay_ms plan.max_random_delay_ms
             target_url body))
    else
      (evs, Except.error "panic: called Result::unwrap on an Err value (http::Error, invalid URI)")

/-- failure_handler (src/main.rs lines 182-298). Inputs beyond the
request itself: ser models serde_json::to_vec, trialDraw is the uniform
[0,1) oracle draw consumed by gen_bool, downstream is the outcome of the
forwarded exchange (unused when the trial short-circuits). Returns the
event trace performed and either the HTTP response or a panic message.
The trial gen_bool(1.0 - failure_rate) is drawn before any forwarding
work; when it fails the synthetic failure is returned without touching
the downstream. -/
def failure_handler (ser : Value → Except String String)
    (config : Config) (headers : HeaderMap) (payload : Value)
    (trialDraw : Q) (downstream : Downstream) :
    List Event × Except String (Nat × Value) :=
  let plan := FaultPlan.decode headers config
  let p := 1 - plan.failure_rate
  match genBool p trialDraw with
  | Except.error e => ([Event.trial p], Except.error e)
  | Except.ok should_succeed =>
    if !should_succeed then
      ([Event.trial p],
       Except.ok (plan.failure_status_code,
         simulatedFailureBody plan.target_url plan.failure_rate
           plan.failure_status_code payload))
    else
      match ser payload with
      | Except.error e =>
        ([Event.trial p, Event.serialize], Except.ok (400, serializeErrorBody e))
      | Except.ok _ =>
        let evs := [Event.trial p, Event.serialize, Event.buildRequest plan.target_url]
        if uriIsValid plan.target_url then
          match downstream with
          | Downstream.transportError cause =>
            (evs ++ [Event.networkSend plan.target_url],
             Except.ok (502, forwardErrorBody cause plan.target_url))
          | Downstream.bodyReadError _ cause =>
            (evs ++ [Event.networkSend plan.target_url],
             Except.ok (502, readErrorBody cause))
          | Downstream.response status bodyStr =>
            let body := (serdeFromSlice bodyStr).getD Value.null
            if plan.return_original then
              (evs ++ [Event.networkSend plan.target_url],
               Except.ok (status, body))
            else
              (evs ++ [Event.networkSend plan.target_url],
               Except.ok (status,
                 failureSuccessEnvelope plan.target_url body))
        else
          (evs, Except.error "panic: called Result::unwrap on an Err value (http::Error, invalid URI)")

/- ---------------------------------------------------------------------
   Concrete fixtures used by witnesses and counterexamples
--------------------------------------------------------------------- -/

/-- A concrete configuration (TARGET_URL=http://example.com/api with the
default SUCCESS_PROBABILITY 0.8). -/
def cfgEx : Config := Config.mk "http://example.com/api" (4 / 5)

/-- The concrete request payload from the spec's testable properties. -/
def payloadEx : Value := Value.obj [("a", Value.num 1)]

/-- A concrete healthy downstream outcome. -/
def dsEx : Downstream := Downstream.response 200 "true"

/- ---------------------------------------------------------------------
   Helper lemmas: concrete parser evaluations
--------------------------------------------------------------------- -/

theorem parseF64_one : parseF64 "1" = some 1 := by rfl

theorem parseF64_zero : parseF64 "0" = some 0 := by rfl

theorem parseU16_503 : parseU16 "503" = some 503 := by rfl

/-- Helper: the Bernoulli trial with failure_rate = 1 (success probability
1 - 1 = 0) never fires, for any oracle draw in [0,1). -/
theorem genBool_one_minus_one (r : Q) (h : (0 : Q) ≤ r) :
    genBool ((1 : Q) - 1) r = Except.ok false := by
  have h1 : ((1 : Q) - 1) = (0 : Q) := by rfl
  rw [h1]
  have hc : ¬ ((0 : Q) < 0 ∨ (1 : Q) < 0) := by decide
  unfold genBool
  rw [if_neg hc]
  have hr : ¬ (r < (0 : Q)) := by
    intro hlt
    have hle : Q.ble 0 r = true := h
    have hblt : Q.blt r 0 = true := hlt
    simp [Q.ble, Q.ofNat] at hle
    simp [Q.blt, Q.ofNat] at hblt
    omega
  simp [hr]

/-- C1: the claim says an out-of-range SUCCESS_PROBABILITY (1.5) makes
startup fail, and an out-of-range X-Failure-Rate fails validation. The
code does neither: Config::from_env only checks that the value parses as
a float (its own expect message promises a range check that is absent),
so SUCCESS_PROBABILITY=1.5 yields a running server with
success_probability = 1.5, and an X-Failure-Rate of 1.5 is taken as
failure_rate 3/2 with no validation. This theorem evaluates the code at
those failing inputs. -/
theorem C1_no_range_validation_on_probabilities :
    Config.from_env (some "http://example.com/api") (some "1.5") =
      Except.ok (Config.mk "http://example.com/api" (3 / 2)) ∧
    (FaultPlan.decode (HeaderMap.mk none none none none (some "1.5") none)
        cfgEx).failure_rate = 3 / 2 := by
  exact ⟨rfl, rfl⟩

/-- C2 counterexample: a POST /delay request whose downstream forward
succeeds with status 404 is answered with status 404, not 200 — the
delay handler relays the downstream status. -/
theorem C2_downstream_status_relayed_not_200 :
    (delay_handler serdeToVec cfgEx HeaderMap.empty payloadEx 0
        (Downstream.response 404 "true")).2 =
      Except.ok (404, delayEnvelope none none "http://example.com/api"
        (Value.bool true)) ∧
    (404 : Nat) ≠ 200 := by
  exact ⟨rfl, by decide⟩

/-- C2 (amended): for every POST /delay request, a successful downstream
forward is answered with the downstream status (200 exactly when the
downstream answers 200) and the documented envelope; payload
serialization failure yields 400; downstream transport failure yields
502. -/
theorem C2_delay_envelope_and_error_mapping (ser : Value → Except String String)
    (config : Config) (headers : HeaderMap) (payload : Value) (draw : Nat) :
    (∀ bs st body, ser payload = Except.ok bs →
      uriIsValid (FaultPlan.decode headers config).target_url = true →
      (delay_handler ser config headers payload draw (Downstream.response st body)).2 =
        Except.ok (st,
          delayEnvelope (FaultPlan.decode headers config).constant_delay_ms
            (FaultPlan.decode headers config).max_random_delay_ms
            (FaultPlan.decode headers config).target_url
            ((serdeFromSlice body).getD Value.null))) ∧
    (∀ e downstream, ser payload = Except.error e →
      (delay_handler ser config headers payload draw downstream).2 =
        Except.ok (400, serializeErrorBody e)) ∧
    (∀ bs cause, ser payload = Except.ok bs →
      uriIsValid (FaultPlan.decode headers config).target_url = true →
      (delay_handler ser config headers payload draw (Downstream.transportError cause)).2 =
        Except.ok (502, forwardErrorBody cause (FaultPlan.decode headers config).target_url)) := by
  refine ⟨?_, ?_, ?_⟩
  · intro bs st body hs hu
    simp [delay_handler, hs, hu]
  · intro e downstream hs
    simp [delay_handler, hs]
  · intro bs cause hs hu
    simp [delay_handler, hs, hu]

/-- C2 witness: the three arms of C2_delay_envelope_and_error_mapping at
concrete inputs. -/
theorem C2_delay_envelope_and_error_mapping_witness :
    (delay_handler serdeToVec cfgEx HeaderMap.empty payloadEx 0
        (Downstream.response 200 "true")).2 =
      Except.ok (200, delayEnvelope none none "http://example.com/api"
        (Value.bool true)) ∧
    (delay_handler (fun _ => Except.error "oops") cfgEx HeaderMap.empty payloadEx 0
        dsEx).2 = Except.ok (400, serializeErrorBody "oops") ∧
    (delay_handler serdeToVec cfgEx HeaderMap.empty payloadEx 0
        (Downstream.transportError "connection refused")).2 =
      Except.ok (502, forwardErrorBody "connection refused" "http://example.com/api") := by
  obtain ⟨ha, _, hc⟩ :=
    C2_delay_envelope_and_error_mapping serdeToVec cfgEx HeaderMap.empty payloadEx 0
  obtain ⟨_, hb, _⟩ :=
    C2_delay_envelope_and_error_mapping (fun _ => Except.error "oops") cfgEx
      HeaderMap.empty payloadEx 0
  exact ⟨ha (Value.render payloadEx) 200 "true" rfl rfl, hb "oops" dsEx rfl,
    hc (Value.render payloadEx) "connection refused" rfl rfl⟩

/-- C3: a POST /failure request with X-Failure-Rate: 1 and
X-Failure-Status-Code: 503 always yields the synthetic 503 failure body
echoing the rate, target URL and request payload; the trace holds no
forwarding work, and the result is independent of the downstream. -/
theorem C3_failure_rate_one_always_short_circuits
    (ser : Value → Except String String) (config : Config)
    (payload : Value) (r : Q) (downstream downstream' : Downstream)
    (proxyUrl returnOrig : Option String) (h : (0 : Q) ≤ r) :
    failure_handler ser config
        (HeaderMap.mk none none proxyUrl returnOrig (some "1") (some "503"))
        payload r downstream =
      ([Event.trial 0],
       Except.ok (503,
         simulatedFailureBody (proxyUrl.getD config.target_url) 1 503 payload)) ∧
    (failure_handler ser config
        (HeaderMap.mk none none proxyUrl returnOrig (some "1") (some "503"))
        payload r downstream).1.all (fun e => !e.isForwardingWork) = true ∧
    failure_handler ser config
        (HeaderMap.mk none none proxyUrl returnOrig (some "1") (some "503"))
        payload r downstream =
      failure_handler ser config
        (HeaderMap.mk none none proxyUrl returnOrig (some "1") (some "503"))
        payload r downstream' := by
  have hplan : ∀ cfg2 : Config, FaultPlan.decode
      (HeaderMap.mk none none proxyUrl returnOrig (some "1") (some "503")) cfg2 =
      FaultPlan.mk none none 1 503 ((returnOrig.bind parseBool).getD false)
        (proxyUrl.getD cfg2.target_url) := by
    intro cfg2
    simp [FaultPlan.decode]
    refine ⟨by rfl, by rfl⟩
  have hmain : failure_handler ser config
      (HeaderMap.mk none none proxyUrl returnOrig (some "1") (some "503"))
      payload r downstream =
      ([Event.trial 0],
       Except.ok (503,
         simulatedFailureBody (proxyUrl.getD config.target_url) 1 503 payload)) := by
    simp only [failure_handler, hplan, genBool_one_minus_one r h]
    simp [Event.isTrial]
    rfl
  refine ⟨hmain, ?_, ?_⟩
  · rw [hmain]
    rfl
  · rw [hmain]
    have hmain2 : failure_handler ser config
        (HeaderMap.mk none none proxyUrl returnOrig (some "1") (some "503"))
        payload r downstream' =
        ([Event.trial 0],
         Except.ok (503,
           simulatedFailureBody (proxyUrl.getD config.target_url) 1 503 payload)) := by
      simp only [failure_handler, hplan, genBool_one_minus_one r h]
      simp [Event.isTrial]
      rfl
    rw [hmain2]

/-- C3 witness: the short circuit at a concrete request (payload
\x7b"a":1\x7d, draw 1/2, healthy downstream against transport error). -/
theorem C3_failure_rate_one_always_short_circuits_witness :
    failure_handler serdeToVec cfgEx
        (HeaderMap.mk none none none none (some "1") (some "503"))
        payloadEx (1 / 2) dsEx =
      ([Event.trial 0],
       Except.ok (503,
         simulatedFailureBody "http://example.com/api" 1 503 payloadEx)) ∧
    (failure_handler serdeToVec cfgEx
        (HeaderMap.mk none none none none (some "1") (some "503"))
        payloadEx (1 / 2) dsEx).1.all (fun e => !e.isForwardingWork) = true ∧
    failure_handler serdeToVec cfgEx
        (HeaderMap.mk none none none none (some "1") (some "503"))
        payloadEx (1 / 2) dsEx =
      failure_handler serdeToVec cfgEx
        (HeaderMap.mk none none none none (some "1") (some "503"))
        payloadEx (1 / 2) (Downstream.transportError "connection refused") := by
  exact C3_failure_rate_one_always_short_circuits serdeToVec cfgEx payloadEx (1 / 2)
    dsEx (Downstream.transportError "connection refused") none none (by decide)

/-- C4: on every execution path of the failure handler the Bernoulli
trial is the first event of the trace — so it happens strictly before
any serialization, request construction or network I/O — and it occurs
exactly once. -/
theorem C4_trial_exactly_once_and_first (ser : Value → Except String String)
    (config : Config) (headers : HeaderMap) (payload : Value) (r : Q)
    (downstream : Downstream) :
    ∃ rest, (failure_handler ser config headers payload r downstream).1 =
        Event.trial (1 - (FaultPlan.decode headers config).failure_rate) :: rest ∧
      rest.countP Event.isTrial = 0 ∧
      (failure_handler ser config headers payload r downstream).1.countP
        Event.isTrial = 1 := by
  rcases hg : genBool (1 - (FaultPlan.decode headers config).failure_rate) r with e | b
  · simp only [failure_handler, hg]
    exact ⟨[], rfl, rfl, rfl⟩
  · cases b
    · simp only [failure_handler, hg, Bool.not_false, if_pos]
      exact ⟨[], rfl, rfl, rfl⟩
    · rcases hs : ser payload with e | bs
      · simp only [failure_handler, hg, hs]
        exact ⟨[Event.serialize], rfl, rfl, rfl⟩
      · by_cases hu : uriIsValid (FaultPlan.decode headers config).target_url = true
        · cases downstream with
          | transportError cause =>
            simp only [failure_handler, hg, hs, hu]
            simp only [if_pos]
            exact ⟨_, rfl, rfl, rfl⟩
          | bodyReadError st cause =>
            simp only [failure_handler, hg, hs, hu]
            simp only [if_pos]
            exact ⟨_, rfl, rfl, rfl⟩
          | response st body =>
            by_cases hro : (FaultPlan.decode headers config).return_original = true
            · simp only [failure_handler, hg, hs, hu, hro]
              simp only [if_pos]
              exact ⟨_, rfl, rfl, rfl⟩
            · simp only [failure_handler, hg, hs, hu]
              simp only [if_pos, if_neg hro]
              exact ⟨_, rfl, rfl, rfl⟩
        · simp only [failure_handler, hg, hs, if_neg hu]
          exact ⟨_, rfl, rfl, rfl⟩

/-- C5 counterexample: with X-Return-Original: true and a successful
downstream response whose body is the bytes "not json", the caller
receives JSON null — whose wire form "null" differs from the downstream
body — so the body is not passed through verbatim. -/
theorem C5_body_not_verbatim_on_undecodable_body :
    (failure_handler serdeToVec cfgEx
        (HeaderMap.mk none none none (some "true") (some "0") none)
        payloadEx (1 / 2) (Downstream.response 200 "not json")).2 =
      Except.ok (200, Value.null) ∧
    Value.render Value.null ≠ "not json" := by
  exact ⟨rfl, by decide⟩

/-- C5 (amended): with X-Return-Original parsed as true and a successful
downstream forward, the response carries the downstream status verbatim
and, as body, the JSON-decoded downstream body (JSON null when the body
does not decode), without the success envelope. -/
theorem C5_return_original_passes_decoded_body
    (ser : Value → Except String String) (config : Config)
    (headers : HeaderMap) (payload : Value) (r : Q) (st : Nat) (body bs : String)
    (hro : (FaultPlan.decode headers config).return_original = true)
    (hg : genBool (1 - (FaultPlan.decode headers config).failure_rate) r =
      Except.ok true)
    (hs : ser payload = Except.ok bs)
    (hu : uriIsValid (FaultPlan.decode headers config).target_url = true) :
    (failure_handler ser config headers payload r (Downstream.response st body)).2 =
      Except.ok (st, (serdeFromSlice body).getD Value.null) := by
  simp [failure_handler, hg, hs, hu, hro]

/-- C5 witness: a downstream 207 with body "[1,2]" is passed through as
status 207 with the decoded JSON array. -/
theorem C5_return_original_passes_decoded_body_witness :
    (failure_handler serdeToVec cfgEx
        (HeaderMap.mk none none none (some "true") (some "0") none)
        payloadEx (1 / 2) (Downstream.response 207 "[1,2]")).2 =
      Except.ok (207, Value.arr [Value.num 1, Value.num 2]) := by
  exact C5_return_original_passes_decoded_body serdeToVec cfgEx
    (HeaderMap.mk none none none (some "true") (some "0") none)
    payloadEx (1 / 2) 207 "[1,2]" (Value.render payloadEx) rfl rfl rfl rfl

/-- C6: when the downstream body fails JSON decoding, both endpoints
substitute the same fallback, JSON null, inside their normal success
envelopes, and the response status stays the downstream status — the
decode failure is never surfaced as an error status. -/
theorem C6_decode_failure_null_fallback_both_endpoints
    (ser : Value → Except String String) (config : Config)
    (headers : HeaderMap) (payload : Value) (draw : Nat) (r : Q)
    (st : Nat) (body bs : String)
    (hs : ser payload = Except.ok bs)
    (hdec : serdeFromSlice body = none)
    (hu : uriIsValid (FaultPlan.decode headers config).target_url = true) :
    ((delay_handler ser config headers payload draw (Downstream.response st body)).2 =
      Except.ok (st, delayEnvelope (FaultPlan.decode headers config).constant_delay_ms
        (FaultPlan.decode headers config).max_random_delay_ms
        (FaultPlan.decode headers config).target_url Value.null)) ∧
    (genBool (1 - (FaultPlan.decode headers config).failure_rate) r =
        Except.ok true →
      (failure_handler ser config headers payload r (Downstream.response st body)).2 =
        Except.ok (st,
          if (FaultPlan.decode headers config).return_original = true then Value.null
          else failureSuccessEnvelope (FaultPlan.decode headers config).target_url
            Value.null)) := by
  constructor
  · simp [delay_handler, hs, hu, hdec]
  · intro hg
    by_cases hro : (FaultPlan.decode headers config).return_original = true <;>
      simp [failure_handler, hg, hs, hu, hdec, hro]

/-- C6 witness: both endpoints at a downstream 200 whose body "not json"
fails decoding. -/
theorem C6_decode_failure_null_fallback_both_endpoints_witness :
    ((delay_handler serdeToVec cfgEx HeaderMap.empty payloadEx 0
        (Downstream.response 200 "not json")).2 =
      Except.ok (200, delayEnvelope none none "http://example.com/api" Value.null)) ∧
    ((failure_handler serdeToVec cfgEx HeaderMap.empty payloadEx (1 / 2)
        (Downstream.response 200 "not json")).2 =
      Except.ok (200,
        failureSuccessEnvelope "http://example.com/api" Value.null)) := by
  obtain ⟨h1, h2⟩ := C6_decode_failure_null_fallback_both_endpoints serdeToVec cfgEx
    HeaderMap.empty payloadEx 0 (1 / 2) 200 "not json" (Value.render payloadEx)
    rfl rfl rfl
  exact ⟨h1, h2 rfl⟩

/-- C7: fault-plan decoding is a total function of the headers and
configuration, and every present-but-unparseable override value falls
back silently to its documented default (false, 1 - success_probability,
500, the configured target URL; the delay fields fall back to no
delay). -/
theorem C7_decode_total_with_silent_fallbacks (headers : HeaderMap) (config : Config) :
    (∀ s, headers.xReturnOriginal = some s → parseBool s = none →
      (FaultPlan.decode headers config).return_original = false) ∧
    (∀ s, headers.xFailureRate = some s → parseF64 s = none →
      (FaultPlan.decode headers config).failure_rate =
        1 - config.success_probability) ∧
    (∀ s, headers.xFailureStatusCode = some s →
      (parseU16 s).bind statusCodeFromU16 = none →
      (FaultPlan.decode headers config).failure_status_code = 500) ∧
    (headers.xProxyUrl = none →
      (FaultPlan.decode headers config).target_url = config.target_url) ∧
    (∀ s, headers.xConstantDelayMs = some s → parseU64 s = none →
      (FaultPlan.decode headers config).constant_delay_ms = none) ∧
    (∀ s, headers.xMaxRandomDelayMs = some s → parseU64 s = none →
      (FaultPlan.decode headers config).max_random_delay_ms = none) := by
  refine ⟨?_, ?_, ?_, ?_, ?_, ?_⟩
  · intro s h1 h2
    simp [FaultPlan.decode, h1, h2]
  · intro s h1 h2
    simp [FaultPlan.decode, h1, h2]
  · intro s h1 h2
    simp [FaultPlan.decode, h1, h2]
  · intro h1
    simp [FaultPlan.decode, h1]
  · intro s h1 h2
    simp [FaultPlan.decode, h1, h2]
  · intro s h1 h2
    simp [FaultPlan.decode, h1, h2]

/-- C7 witness: a header map whose six override values are all present
but unparseable (or an out-of-range status code) decodes to the
documented defaults. -/
theorem C7_decode_total_with_silent_fallbacks_witness :
    (FaultPlan.decode (HeaderMap.mk (some "12x") (some "-3") none (some "yes")
        (some "abc") (some "99")) cfgEx).return_original = false ∧
    (FaultPlan.decode (HeaderMap.mk (some "12x") (some "-3") none (some "yes")
        (some "abc") (some "99")) cfgEx).failure_rate =
      1 - cfgEx.success_probability ∧
    (FaultPlan.decode (HeaderMap.mk (some "12x") (some "-3") none (some "yes")
        (some "abc") (some "99")) cfgEx).failure_status_code = 500 ∧
    (FaultPlan.decode (HeaderMap.mk (some "12x") (some "-3") none (some "yes")
        (some "abc") (some "99")) cfgEx).target_url = "http://example.com/api" ∧
    (FaultPlan.decode (HeaderMap.mk (some "12x") (some "-3") none (some "yes")
        (some "abc") (some "99")) cfgEx).constant_delay_ms = none ∧
    (FaultPlan.decode (HeaderMap.mk (some "12x") (some "-3") none (some "yes")
        (some "abc") (some "99")) cfgEx).max_random_delay_ms = none := by
  obtain ⟨p1, p2, p3, p4, p5, p6⟩ := C7_decode_total_with_silent_fallbacks
    (HeaderMap.mk (some "12x") (some "-3") none (some "yes") (some "abc") (some "99"))
    cfgEx
  exact ⟨p1 "yes" rfl rfl, p2 "abc" rfl rfl, p3 "99" rfl rfl, p4 rfl,
    p5 "12x" rfl rfl, p6 "-3" rfl rfl⟩

/-- C8: with both delay headers parseable, the trace begins with the
constant sleep followed by the random sleep — sequential, constant
first — and the random delay lies in the inclusive range [0, max], with
max = 0 forcing exactly 0. -/
theorem C8_random_delay_bounded_constant_first (ser : Value → Except String String)
    (config : Config) (headers : HeaderMap) (payload : Value) (draw : Nat)
    (downstream : Downstream) (c m : Nat) (sc sm : String)
    (h1 : headers.xConstantDelayMs = some sc) (h2 : parseU64 sc = some c)
    (h3 : headers.xMaxRandomDelayMs = some sm) (h4 : parseU64 sm = some m) :
    (delay_handler ser config headers payload draw downstream).1.take 2 =
      [Event.sleep c, Event.sleep (genRange m draw)] ∧
    genRange m draw ≤ m ∧ (m = 0 → genRange m draw = 0) := by
  have hc : (FaultPlan.decode headers config).constant_delay_ms = some c := by
    simp [FaultPlan.decode, h1, h2]
  have hm : (FaultPlan.decode headers config).max_random_delay_ms = some m := by
    simp [FaultPlan.decode, h3, h4]
  refine ⟨?_, Nat.lt_succ_iff.mp (Nat.mod_lt _ (Nat.succ_pos m)), fun hm0 => by
    simp [genRange, hm0, Nat.mod_one]⟩
  rcases hs : ser payload with e | bs
  · simp [delay_handler, hc, hm, hs]
  · by_cases hu : uriIsValid (FaultPlan.decode headers config).target_url = true
    · cases downstream with
      | transportError cause => simp [delay_handler, hc, hm, hs, hu]
      | bodyReadError st cause => simp [delay_handler, hc, hm, hs, hu]
      | response st body => simp [delay_handler, hc, hm, hs, hu]
    · simp [delay_handler, hc, hm, hs, hu]

/-- C8 witness: X-Constant-Delay-Ms: 250 and X-Max-Random-Delay-Ms: 100
with oracle draw 1234 sleep 250 ms then 22 ms (22 = 1234 mod 101 ≤ 100). -/
theorem C8_random_delay_bounded_constant_first_witness :
    (delay_handler serdeToVec cfgEx
        (HeaderMap.mk (some "250") (some "100") none none none none)
        payloadEx 1234 dsEx).1.take 2 =
      [Event.sleep 250, Event.sleep 22] ∧
    (22 : Nat) ≤ 100 ∧ ((100 : Nat) = 0 → (22 : Nat) = 0) := by
  exact C8_random_delay_bounded_constant_first serdeToVec cfgEx
    (HeaderMap.mk (some "250") (some "100") none none none none)
    payloadEx 1234 dsEx 250 100 "250" "100" rfl rfl rfl rfl

/-- C9: an X-Failure-Rate header that parses as a float outside [0,1]
(2.0, also -1.0) reaches gen_bool unvalidated, whose argument
1.0 - failure_rate then lies outside [0,1], and the handler panics
instead of answering. -/
theorem C9_out_of_range_failure_rate_panics :
    parseF64 "2.0" = some 2 ∧
    (failure_handler serdeToVec cfgEx
        (HeaderMap.mk none none none none (some "2.0") none)
        payloadEx 0 dsEx).2 =
      Except.error "BernoulliError: p is outside range [0, 1] in gen_bool" ∧
    (failure_handler serdeToVec cfgEx
        (HeaderMap.mk none none none none (some "-1.0") none)
        payloadEx 0 dsEx).2 =
      Except.error "BernoulliError: p is outside range [0, 1] in gen_bool" := by
  exact ⟨rfl, rfl, rfl⟩

/-- C10: an X-Proxy-Url value that is not a valid URI ("not a uri")
makes the unchecked .unwrap() on request construction panic in both
handlers instead of producing a 400- or 502-class response. -/
theorem C10_invalid_proxy_url_panics_both_handlers :
    uriIsValid "not a uri" = false ∧
    (delay_handler serdeToVec cfgEx
        (HeaderMap.mk none none (some "not a uri") none none none)
        payloadEx 0 dsEx).2 =
      Except.error "panic: called Result::unwrap on an Err value (http::Error, invalid URI)" ∧
    (failure_handler serdeToVec cfgEx
        (HeaderMap.mk none none (some "not a uri") none (some "0") none)
        payloadEx (1 / 2) dsEx).2 =
      Except.error "panic: called Result::unwrap on an Err value (http::Error, invalid URI)" := by
  exact ⟨rfl, rfl, rfl⟩
